import Mathlib

/-!
Shallow embedding of the core of `gh-upload-log` (src/index.js) in Lean 4,
with theorems settling the frozen claims about its specification.

Conventions of the embedding:
* strings are modelled through their character lists (`String.data`),
  so every definition is executable and evaluable by `decide`/`rfl`;
* JavaScript numbers holding byte counts are modelled as `Nat`
  (`Math.ceil(a / b)` on naturals becomes `(a + b - 1) / b`);
* the file system is an explicit read-only oracle (`FileSystem`):
  `existsSync` never throws, `statSync` may fail (`Except`);
* external subprocesses (`gh`, `git`, `split`) are oracles whose captured
  stdout/stderr or success/failure outcome is supplied as data; the
  functions under verification only ever consume those outcomes;
* thrown JavaScript errors are `Except.error` carrying the message string.
-/

/-- Whitespace characters trimmed by `String.prototype.trim` (the ones
relevant to captured CLI output). -/
def isWsChar (c : Char) : Bool := c == ' ' || c == '\t' || c == '\n' || c == '\r'

/-- Trimming on character lists: drop whitespace at both ends. -/
def trimChars (cs : List Char) : List Char :=
  ((cs.dropWhile isWsChar).reverse.dropWhile isWsChar).reverse

/-- Embedding of `String.prototype.trim`. -/
def trimStr (s : String) : String := ⟨trimChars s.data⟩

/-- Embedding of `String.prototype.startsWith`. -/
def startsWithStr (s pre : String) : Bool := pre.data.isPrefixOf s.data

/-- Character transformation of `normalizeFileName`:
`filePath.replace(/^\/*" ++ "/, '').replace(/\//g, '-')` — drop the leading
run of `/` characters, then turn every remaining `/` into `-`. -/
def normalizeChars (cs : List Char) : List Char :=
  (cs.dropWhile (fun c => c == '/')).map (fun c => if c = '/' then '-' else c)

/-- Embedding of `normalizeFileName` from src/index.js (lines 371–373). -/
def normalizeFileName (filePath : String) : String :=
  ⟨normalizeChars filePath.data⟩

/-- Node's `path.basename(name, ext)` restricted to slash-free `name`
(the argument always is the output of `normalizeFileName`, which contains
no `/`): strip `ext` from the end when it is a proper suffix; when the
whole name equals `ext`, or `ext` is not a suffix, the name is returned
unchanged. -/
def basenameExtChars (name ext : List Char) : List Char :=
  if ext.isSuffixOf name && name != ext then
    name.take (name.length - ext.length)
  else
    name

/-- Embedding of `generateRepoName` from src/index.js (lines 382–386):
`"log-" + path.basename(normalizeFileName(filePath), '.log')`. -/
def generateRepoName (filePath : String) : String :=
  "log-" ++ String.mk (basenameExtChars (normalizeFileName filePath).data ".log".data)

/-- Embedding of `generateGistFileName` from src/index.js (lines 395–397). -/
def generateGistFileName (filePath : String) : String :=
  normalizeFileName filePath

/- Helper lemmas about normalization. -/

theorem normalizeChars_no_slash (cs : List Char) :
    ∀ c ∈ normalizeChars cs, c ≠ '/' := by
  intro c hc
  rcases List.mem_map.mp hc with ⟨a, _, ha⟩
  by_cases h : a = '/'
  · subst ha; simp [h]
  · subst ha; simp [h]

theorem map_slash_dash_id (cs : List Char) (h : ∀ c ∈ cs, c ≠ '/') :
    cs.map (fun c => if c = '/' then '-' else c) = cs := by
  induction cs with
  | nil => rfl
  | cons a tl ih =>
    have ha : a ≠ '/' := h a (List.mem_cons_self a tl)
    have htl := ih (fun c hc => h c (List.mem_cons_of_mem a hc))
    simp [ha, htl]

theorem normalizeChars_of_no_slash (cs : List Char) (h : ∀ c ∈ cs, c ≠ '/') :
    normalizeChars cs = cs := by
  unfold normalizeChars
  have hdrop : cs.dropWhile (fun c => c == '/') = cs := by
    cases cs with
    | nil => rfl
    | cons a tl =>
      have ha : (a == '/') = false :=
        beq_eq_false_iff_ne.mpr (h a (List.mem_cons_self a tl))
      simp [List.dropWhile_cons, ha]
  rw [hdrop]
  exact map_slash_dash_id cs h

/-- C8: `normalizeFileName` is idempotent: for every string `x`,
`normalizeFileName (normalizeFileName x) = normalizeFileName x`
(the first pass removes every `/`, so the second pass has nothing to do). -/
theorem normalizeFileName_idempotent (x : String) :
    normalizeFileName (normalizeFileName x) = normalizeFileName x := by
  unfold normalizeFileName
  congr 1
  exact normalizeChars_of_no_slash _ (normalizeChars_no_slash x.data)

/-- C6: `generateRepoName` prefixes `log-` to the normalized path with a
trailing `.log` stripped only when present; any other extension is kept
verbatim.  In particular `generateRepoName "/home/user/test.log"` is
`"log-home-user-test"` and `generateRepoName "/var/log/error.txt"` is
`"log-var-log-error.txt"`. -/
theorem generateRepoName_spec :
    (∀ p : String, ".log".data.isSuffixOf (normalizeFileName p).data = false →
        generateRepoName p = "log-" ++ normalizeFileName p) ∧
    (∀ p : String, ".log".data.isSuffixOf (normalizeFileName p).data = true →
        normalizeFileName p ≠ ".log" →
        generateRepoName p =
          "log-" ++ String.mk
            ((normalizeFileName p).data.take ((normalizeFileName p).data.length - 4))) ∧
    generateRepoName "/home/user/test.log" = "log-home-user-test" ∧
    generateRepoName "/var/log/error.txt" = "log-var-log-error.txt" := by
  refine ⟨?_, ?_, by decide, by decide⟩
  · intro p hp
    unfold generateRepoName basenameExtChars
    rw [hp]
    rfl
  · intro p hp hne
    have hd : (normalizeFileName p).data ≠ ".log".data := fun hdata => hne (String.ext hdata)
    simp [generateRepoName, basenameExtChars, hp, hd]

/-- C6 witness: the non-`.log` extension of `/var/log/error.txt` is kept. -/
theorem generateRepoName_spec_witness :
    generateRepoName "/var/log/error.txt" = "log-" ++ normalizeFileName "/var/log/error.txt" :=
  generateRepoName_spec.1 "/var/log/error.txt" (by decide)

/-- Outcome of a successful `fs.statSync`: the kind of entry and its
`size` field (directories and special files also carry a size). -/
inductive FsEntry where
  | file (size : Nat)
  | dir (size : Nat)
  | other (size : Nat)
deriving DecidableEq, Repr

/-- Size field of a stat result. -/
def FsEntry.size : FsEntry → Nat
  | .file s => s
  | .dir s => s
  | .other s => s

/-- Embedding of `stats.isFile()`. -/
def FsEntry.isFile : FsEntry → Bool
  | .file _ => true
  | _ => false

/-- Read-only oracle for the `node:fs` operations the code consults:
`existsSync` returns a boolean and never throws; `statSync` either
returns an entry or throws (modelled as `Except.error message`). -/
structure FileSystem where
  existsSync : String → Bool
  statSync : String → Except String FsEntry

/-- Embedding of `fileExists` from src/index.js (lines 405–411):
`try { return fs.existsSync(p) && fs.statSync(p).isFile(); } catch { return false; }`.
The `catch` arm is the `.error` branch of `statSync`. -/
def fileExists (fs : FileSystem) (filePath : String) : Bool :=
  if fs.existsSync filePath then
    match fs.statSync filePath with
    | .ok e => e.isFile
    | .error _ => false
  else false

/-- Embedding of `getFileSize` from src/index.js (lines 419–421):
`fs.statSync(filePath).size`; a stat failure propagates. -/
def getFileSize (fs : FileSystem) (filePath : String) : Except String Nat :=
  match fs.statSync filePath with
  | .ok e => .ok e.size
  | .error msg => .error msg

/-- Concrete file system holding exactly one regular file, for witnesses. -/
def singleFileFS (p : String) (size : Nat) : FileSystem where
  existsSync := fun q => q == p
  statSync := fun q => if q == p then .ok (.file size) else .error ("ENOENT: " ++ q)

/-- Constant from src/index.js line 360 (25 MiB safe API limit). -/
def GITHUB_GIST_FILE_LIMIT : Nat := 25 * 1024 * 1024

/-- Constant from src/index.js line 361. -/
def GITHUB_GIST_WEB_LIMIT : Nat := 25 * 1024 * 1024

/-- Constant from src/index.js line 362 (100 MiB repo chunks). -/
def GITHUB_REPO_CHUNK_SIZE : Nat := 100 * 1024 * 1024

/-- Upload strategies. -/
inductive UploadType where
  | gist
  | repo
deriving DecidableEq, Repr

/-- Strategy descriptor returned by `determineUploadStrategy`; fields that
the gist branch of the source object literal omits are `Option`s. -/
structure StrategyDecision where
  type : UploadType
  fileSize : Nat
  needsSplit : Bool
  numChunks : Option Nat
  chunkSize : Option Nat
  reason : String
deriving DecidableEq, Repr

/-- Size-to-strategy decision of `determineUploadStrategy`
(src/index.js lines 463–485), as a pure function of the byte size.
`Math.ceil(fileSize / GITHUB_REPO_CHUNK_SIZE)` on naturals is
`(fileSize + GITHUB_REPO_CHUNK_SIZE - 1) / GITHUB_REPO_CHUNK_SIZE`. -/
def strategyOfSize (fileSize : Nat) : StrategyDecision :=
  if fileSize ≤ GITHUB_GIST_FILE_LIMIT then
    { type := .gist
      fileSize := fileSize
      needsSplit := false
      numChunks := none
      chunkSize := none
      reason := "File fits within GitHub Gist API limit (25MB)" }
  else
    { type := .repo
      fileSize := fileSize
      needsSplit := decide (GITHUB_REPO_CHUNK_SIZE < fileSize)
      numChunks := some ((fileSize + GITHUB_REPO_CHUNK_SIZE - 1) / GITHUB_REPO_CHUNK_SIZE)
      chunkSize := some GITHUB_REPO_CHUNK_SIZE
      reason :=
        if GITHUB_REPO_CHUNK_SIZE < fileSize then
          "File exceeds Gist limit, will be split into " ++
            toString ((fileSize + GITHUB_REPO_CHUNK_SIZE - 1) / GITHUB_REPO_CHUNK_SIZE) ++
            " chunks"
        else
          "File exceeds Gist limit, will upload as repository" }

/-- Embedding of `determineUploadStrategy` from src/index.js (lines 458–486):
fail when the path is not an existing regular file, else classify by size. -/
def determineUploadStrategy (fs : FileSystem) (filePath : String) :
    Except String StrategyDecision :=
  if fileExists fs filePath then
    match getFileSize fs filePath with
    | .ok fileSize => .ok (strategyOfSize fileSize)
    | .error msg => .error msg
  else
    .error ("File does not exist: " ++ filePath)

/-- Embedding of the `chunkSizeMB` computation inside `splitFileIntoChunks`
(src/index.js line 513): `Math.ceil(chunkSize / (1024 * 1024))`, the value
interpolated into `split -b ...m`. -/
def chunkSizeMB (chunkSize : Nat) : Nat :=
  (chunkSize + 1024 * 1024 - 1) / (1024 * 1024)

/-- C9: `fileExists` is a total boolean predicate: it returns `true`
exactly when the path exists and stats to a regular file; a throwing
`statSync`, a directory, or a special file all yield `false` rather than
an exception (the function is defined on every oracle). -/
theorem fileExists_total_sound (fs : FileSystem) (p : String) :
    fileExists fs p = true ↔
      (fs.existsSync p = true ∧ ∃ s, fs.statSync p = .ok (.file s)) := by
  unfold fileExists
  cases hex : fs.existsSync p with
  | false => simp
  | true =>
    cases hst : fs.statSync p with
    | error msg => simp
    | ok e => cases e <;> simp [FsEntry.isFile]

/-- C2: for an existing regular file of size `s`, `determineUploadStrategy`
succeeds and returns `gist` iff `s ≤ 25·1024·1024`, else `repo` whose
`needsSplit` is `true` iff `s > 100·1024·1024`, with
`numChunks = ceil(s / (100·1024·1024))`; the boundary sizes
25 MiB, 25 MiB + 1 and 100 MiB + 1 classify as stated. -/
theorem determineUploadStrategy_spec (fs : FileSystem) (p : String) (s : Nat)
    (hex : fs.existsSync p = true) (hstat : fs.statSync p = .ok (.file s)) :
    determineUploadStrategy fs p = .ok (strategyOfSize s) ∧
    ((strategyOfSize s).type = .gist ↔ s ≤ 25 * 1024 * 1024) ∧
    ((strategyOfSize s).type = .repo ↔ 25 * 1024 * 1024 < s) ∧
    ((strategyOfSize s).needsSplit = true ↔
      ((strategyOfSize s).type = .repo ∧ 100 * 1024 * 1024 < s)) ∧
    (25 * 1024 * 1024 < s →
      (strategyOfSize s).numChunks =
        some ((s + 100 * 1024 * 1024 - 1) / (100 * 1024 * 1024))) ∧
    (strategyOfSize (25 * 1024 * 1024)).type = .gist ∧
    ((strategyOfSize (25 * 1024 * 1024 + 1)).type = .repo ∧
      (strategyOfSize (25 * 1024 * 1024 + 1)).needsSplit = false) ∧
    ((strategyOfSize (100 * 1024 * 1024 + 1)).type = .repo ∧
      (strategyOfSize (100 * 1024 * 1024 + 1)).needsSplit = true ∧
      (strategyOfSize (100 * 1024 * 1024 + 1)).numChunks = some 2) := by
  refine ⟨?_, ?_, ?_, ?_, ?_, by decide, by decide, by decide⟩
  · simp [determineUploadStrategy, fileExists, getFileSize, hex, hstat,
      FsEntry.isFile, FsEntry.size]
  · simp only [strategyOfSize, GITHUB_GIST_FILE_LIMIT, GITHUB_REPO_CHUNK_SIZE]
    by_cases h : s ≤ 25 * 1024 * 1024 <;> simp [h]
  · simp only [strategyOfSize, GITHUB_GIST_FILE_LIMIT, GITHUB_REPO_CHUNK_SIZE]
    by_cases h : s ≤ 25 * 1024 * 1024 <;> simp [h] <;> try omega
  · simp only [strategyOfSize, GITHUB_GIST_FILE_LIMIT, GITHUB_REPO_CHUNK_SIZE]
    by_cases h : s ≤ 25 * 1024 * 1024 <;> simp [h] <;> try omega
  · intro hs
    have h : ¬ s ≤ 25 * 1024 * 1024 := by omega
    simp only [strategyOfSize, GITHUB_GIST_FILE_LIMIT, GITHUB_REPO_CHUNK_SIZE]
    simp [h]

/-- C2 witness: a 100 MiB + 1 byte file splits into 2 chunks. -/
theorem determineUploadStrategy_spec_witness :
    determineUploadStrategy (singleFileFS "big.log" (100 * 1024 * 1024 + 1)) "big.log" =
      .ok (strategyOfSize (100 * 1024 * 1024 + 1)) ∧
    (strategyOfSize (100 * 1024 * 1024 + 1)).numChunks = some 2 := by
  have h := determineUploadStrategy_spec (singleFileFS "big.log" (100 * 1024 * 1024 + 1))
    "big.log" (100 * 1024 * 1024 + 1) (by decide) (by rfl)
  exact ⟨h.1, h.2.2.2.2.2.2.2.2.2⟩

/-- C10: `chunkSizeMB` rounds the requested byte count up to whole
mebibytes: the resulting `-b` argument covers at least `chunkSize` bytes,
it is the least such whole-MiB count, and it strictly exceeds `chunkSize`
exactly when `chunkSize` is not a multiple of 1048576. -/
theorem chunkSizeMB_rounds_up (c : Nat) :
    c ≤ chunkSizeMB c * (1024 * 1024) ∧
    (∀ n : Nat, c ≤ n * (1024 * 1024) → chunkSizeMB c ≤ n) ∧
    (c < chunkSizeMB c * (1024 * 1024) ↔ ¬ (1024 * 1024 ∣ c)) := by
  unfold chunkSizeMB
  refine ⟨by omega, ?_, ?_⟩
  · intro n hn
    omega
  · rw [Nat.dvd_iff_mod_eq_zero]
    omega

/-- C10 witness: one byte over a mebibyte needs 2 MiB parts, strictly
larger than requested. -/
theorem chunkSizeMB_rounds_up_witness :
    chunkSizeMB (1024 * 1024 + 1) ≤ 2 ∧
    1024 * 1024 + 1 < chunkSizeMB (1024 * 1024 + 1) * (1024 * 1024) := by
  refine ⟨(chunkSizeMB_rounds_up (1024 * 1024 + 1)).2.1 2 (by norm_num), ?_⟩
  exact (chunkSizeMB_rounds_up (1024 * 1024 + 1)).2.2.mpr (by decide)

/-- Options record consumed by the upload functions (src/index.js
lines 714–725 and the destructurings in `uploadAsGist` / `uploadAsRepo`);
`filePath` is `Option` because the source checks `if (!filePath)`.
The `verbose`/`logger` fields configure logging only and are omitted. -/
structure UploadOptions where
  filePath : Option String := none
  isPublic : Bool := false
  auto : Bool := true
  onlyGist : Bool := false
  onlyRepository : Bool := false
  dryMode : Bool := false
  description : Option String := none
deriving DecidableEq, Repr

/-- Result object returned by the upload functions; fields absent from a
given source object literal are `none`. -/
structure UploadResult where
  type : UploadType
  url : String
  fileName : Option String := none
  repositoryName : Option String := none
  isPublic : Bool
  dryMode : Option Bool := none
  workDir : Option String := none
deriving DecidableEq, Repr

/-- Captured output of an external command invocation. -/
structure CommandResult where
  stdout : String
  stderr : String
deriving DecidableEq, Repr

/-- The bare gist host prefix checked by `uploadAsGist`. -/
def gistUrlBase : String := "https://gist.github.com/"

/-- Embedding of the shared `if (!filePath) throw new Error(...)` guard
(JavaScript falsiness: `undefined` or the empty string). -/
def requireFilePath (opts : UploadOptions) : Except String String :=
  match opts.filePath with
  | none => .error "filePath is required in options"
  | some fp => if fp = "" then .error "filePath is required in options" else .ok fp

/-- Embedding of `uploadAsGist` from src/index.js (lines 537–592).  The
`gh gist create` invocation is an oracle whose captured output is `cmd`;
the function trims stdout, validates it against the gist URL shape, and
either fails with the trimmed stderr (or `"Unknown error"`) or returns
the result record. -/
def uploadAsGist (cmd : CommandResult) (opts : UploadOptions) :
    Except String UploadResult :=
  match requireFilePath opts with
  | .error e => .error e
  | .ok fp =>
    if trimStr cmd.stdout = "" ∨
        startsWithStr (trimStr cmd.stdout) gistUrlBase = false ∨
        trimStr cmd.stdout = gistUrlBase then
      .error ("Failed to create gist: " ++
        (if cmd.stderr = "" then "Unknown error" else trimStr cmd.stderr))
    else
      .ok { type := .gist
            url := trimStr cmd.stdout
            fileName := some (generateGistFileName fp)
            repositoryName := none
            isPublic := opts.isPublic
            dryMode := none
            workDir := none }

theorem requireFilePath_some (opts : UploadOptions) (fp : String)
    (hfp : opts.filePath = some fp) (hne : fp ≠ "") :
    requireFilePath opts = .ok fp := by
  unfold requireFilePath
  rw [hfp]
  simp [hne]

theorem startsWith_longer_iff (u base : String) :
    (startsWithStr u base = true ∧ base.length < u.length) ↔
      (¬ u = "" ∧ startsWithStr u base = true ∧ ¬ u = base) := by
  constructor
  · rintro ⟨hsw, hlt⟩
    refine ⟨?_, hsw, ?_⟩
    · intro h
      rw [h] at hlt
      exact Nat.not_lt_zero _ hlt
    · intro h
      rw [h] at hlt
      exact lt_irrefl _ hlt
  · rintro ⟨hne0, hsw, hneb⟩
    refine ⟨hsw, ?_⟩
    have hpre : base.data <+: u.data := List.isPrefixOf_iff_prefix.mp hsw
    have hle : base.data.length ≤ u.data.length := hpre.length_le
    rcases Nat.lt_or_ge base.data.length u.data.length with hlt | hge
    · exact hlt
    · exfalso
      have heq : base.data = u.data := hpre.eq_of_length (Nat.le_antisymm hle hge)
      exact hneb (String.ext heq).symm

/-- C1: `uploadAsGist` fails with the `Failed to create gist` error
(carrying trimmed stderr, or `"Unknown error"` when stderr is empty)
whenever the trimmed stdout is empty — which covers empty and
whitespace-only captures — does not start with
`https://gist.github.com/`, or equals that bare prefix; it returns a
success exactly when the trimmed stdout extends the bare prefix strictly,
and any success carries that URL with type `gist`. -/
theorem uploadAsGist_validation (cmd : CommandResult) (opts : UploadOptions)
    (fp : String) (hfp : opts.filePath = some fp) (hne : fp ≠ "") :
    ((trimStr cmd.stdout = "" ∨
        startsWithStr (trimStr cmd.stdout) gistUrlBase = false ∨
        trimStr cmd.stdout = gistUrlBase) →
      uploadAsGist cmd opts =
        .error ("Failed to create gist: " ++
          (if cmd.stderr = "" then "Unknown error" else trimStr cmd.stderr))) ∧
    ((∃ r, uploadAsGist cmd opts = .ok r) ↔
      (startsWithStr (trimStr cmd.stdout) gistUrlBase = true ∧
        gistUrlBase.length < (trimStr cmd.stdout).length)) ∧
    (∀ r, uploadAsGist cmd opts = .ok r →
      r.url = trimStr cmd.stdout ∧ r.type = .gist ∧ r.isPublic = opts.isPublic) := by
  have hbody : uploadAsGist cmd opts =
      (if trimStr cmd.stdout = "" ∨
          startsWithStr (trimStr cmd.stdout) gistUrlBase = false ∨
          trimStr cmd.stdout = gistUrlBase then
        .error ("Failed to create gist: " ++
          (if cmd.stderr = "" then "Unknown error" else trimStr cmd.stderr))
      else
        .ok { type := .gist
              url := trimStr cmd.stdout
              fileName := some (generateGistFileName fp)
              repositoryName := none
              isPublic := opts.isPublic
              dryMode := none
              workDir := none }) := by
    unfold uploadAsGist
    rw [requireFilePath_some opts fp hfp hne]
  refine ⟨?_, ?_, ?_⟩
  · intro hcond
    rw [hbody, if_pos hcond]
  · rw [hbody]
    by_cases hcond : trimStr cmd.stdout = "" ∨
        startsWithStr (trimStr cmd.stdout) gistUrlBase = false ∨
        trimStr cmd.stdout = gistUrlBase
    · rw [if_pos hcond]
      constructor
      · rintro ⟨r, hr⟩
        exact Except.noConfusion hr
      · intro hrhs
        rcases (startsWith_longer_iff (trimStr cmd.stdout) gistUrlBase).mp hrhs with
          ⟨h1, h2, h3⟩
        rcases hcond with h | h | h
        · exact absurd h h1
        · rw [h2] at h
          exact Bool.noConfusion h
        · exact absurd h h3
    · rw [if_neg hcond]
      push_neg at hcond
      constructor
      · intro _
        refine (startsWith_longer_iff (trimStr cmd.stdout) gistUrlBase).mpr
          ⟨hcond.1, ?_, hcond.2.2⟩
        cases hb : startsWithStr (trimStr cmd.stdout) gistUrlBase with
        | false => exact absurd hb hcond.2.1
        | true => rfl
      · intro _
        exact ⟨_, rfl⟩
  · rw [hbody]
    by_cases hcond : trimStr cmd.stdout = "" ∨
        startsWithStr (trimStr cmd.stdout) gistUrlBase = false ∨
        trimStr cmd.stdout = gistUrlBase
    · rw [if_pos hcond]
      intro r hr
      exact Except.noConfusion hr
    · rw [if_neg hcond]
      intro r hr
      have : r = { type := .gist
                   url := trimStr cmd.stdout
                   fileName := some (generateGistFileName fp)
                   repositoryName := none
                   isPublic := opts.isPublic
                   dryMode := none
                   workDir := none } := by
        cases hr
        rfl
      rw [this]
      exact ⟨rfl, rfl, rfl⟩

/-- C1 witness: an HTTP-502-style silent failure (empty stdout, stderr
diagnostic) is reported as `GistCreationFailed`, and a well-formed URL is
a success. -/
theorem uploadAsGist_validation_witness :
    uploadAsGist { stdout := "", stderr := "HTTP 502" }
        { filePath := some "app.log" } =
      .error "Failed to create gist: HTTP 502" ∧
    (∃ r, uploadAsGist { stdout := "https://gist.github.com/u/abc123\n", stderr := "" }
        { filePath := some "app.log" } = .ok r) := by
  constructor
  · have h := (uploadAsGist_validation { stdout := "", stderr := "HTTP 502" }
      { filePath := some "app.log" } "app.log" rfl (by decide)).1 (Or.inl (by decide))
    simpa using h
  · exact ((uploadAsGist_validation { stdout := "https://gist.github.com/u/abc123\n", stderr := "" }
      { filePath := some "app.log" } "app.log" rfl (by decide)).2.1).mpr (by decide)


/-- Oracle outcomes for the external effects of `uploadAsRepo`
(src/index.js lines 605–696), one per `try`-block step: local file
operations, the four git commands, the `gh api user` identity lookup
(with its captured stdout) and the `gh repo create … --push` call.
`workDirExists` is the answer `fs.existsSync(workDir)` would give in the
`catch` block; `now` is `Date.now()`. -/
structure RepoEnv where
  mkdirResult : Except String Unit
  copyResult : Except String Unit
  splitResult : Except String Unit
  unlinkResult : Except String Unit
  gitInit : Except String Unit
  gitBranch : Except String Unit
  gitAdd : Except String Unit
  gitCommit : Except String Unit
  whoami : Except String String
  repoCreate : Except String Unit
  workDirExists : Bool
  now : Nat

/-- Sequencing of a fallible unit step before a fallible tail
(`await step; rest` with exceptions short-circuiting). -/
def stepThen (step : Except String Unit) (rest : Except String String) :
    Except String String :=
  match step with
  | .error e => .error e
  | .ok _ => rest

/-- Sequencing of two fallible unit steps. -/
def stepThenU (step : Except String Unit) (rest : Except String Unit) :
    Except String Unit :=
  match step with
  | .error e => .error e
  | .ok _ => rest

/-- Binding of a fallible `Nat`-producing step. -/
def sizeStep (r : Except String Nat) (rest : Nat → Except String String) :
    Except String String :=
  match r with
  | .error e => .error e
  | .ok n => rest n

/-- Binding of a fallible `String`-producing step. -/
def userStep (r : Except String String) (rest : String → Except String String) :
    Except String String :=
  match r with
  | .error e => .error e
  | .ok s => rest s

theorem stepThen_error (e : String) (rest : Except String String) :
    stepThen (.error e) rest = .error e := rfl

theorem stepThen_ok (u : Unit) (rest : Except String String) :
    stepThen (.ok u) rest = rest := rfl

theorem stepThenU_error (e : String) (rest : Except String Unit) :
    stepThenU (.error e) rest = .error e := rfl

theorem stepThenU_ok (u : Unit) (rest : Except String Unit) :
    stepThenU (.ok u) rest = rest := rfl

theorem sizeStep_error (e : String) (rest : Nat → Except String String) :
    sizeStep (.error e) rest = .error e := rfl

theorem sizeStep_ok (n : Nat) (rest : Nat → Except String String) :
    sizeStep (.ok n) rest = rest n := rfl

theorem userStep_error (e : String) (rest : String → Except String String) :
    userStep (.error e) rest = .error e := rfl

theorem userStep_ok (s : String) (rest : String → Except String String) :
    userStep (.ok s) rest = rest s := rfl

theorem getFileSize_from_stat_error (fs : FileSystem) (p : String) (e : String)
    (h : fs.statSync p = .error e) : getFileSize fs p = .error e := by
  unfold getFileSize
  rw [h]

theorem getFileSize_from_stat_ok (fs : FileSystem) (p : String) (entry : FsEntry)
    (h : fs.statSync p = .ok entry) : getFileSize fs p = .ok entry.size := by
  unfold getFileSize
  rw [h]

/-- The `try` block of `uploadAsRepo` as the sequence of its fallible
steps, each failure aborting the rest; yields the trimmed `gh api user`
login on success.  The split/unlink pair runs only when the file exceeds
`GITHUB_REPO_CHUNK_SIZE`, exactly as in the source. -/
def uploadAsRepoSteps (fs : FileSystem) (env : RepoEnv) (fp : String) :
    Except String String :=
  stepThen env.mkdirResult <|
  stepThen env.copyResult <|
  sizeStep (getFileSize fs fp) fun fileSize =>
  stepThen (if GITHUB_REPO_CHUNK_SIZE < fileSize
            then stepThenU env.splitResult env.unlinkResult
            else .ok ()) <|
  stepThen env.gitInit <|
  stepThen env.gitBranch <|
  stepThen env.gitAdd <|
  stepThen env.gitCommit <|
  userStep env.whoami fun whoamiOut =>
  stepThen env.repoCreate (.ok (trimStr whoamiOut))

/-- Embedding of `uploadAsRepo` from src/index.js (lines 605–696).  The
second component records whether the `catch` block removed the scratch
directory (`fs.rmSync(workDir, {recursive: true, force: true})`), which
it does exactly when `fs.existsSync(workDir)` holds; on success no
cleanup runs and the result carries the `workDir` path. -/
def uploadAsRepo (fs : FileSystem) (env : RepoEnv) (opts : UploadOptions) :
    Except String UploadResult × Bool :=
  match requireFilePath opts with
  | .error e => (.error e, false)
  | .ok fp =>
    match uploadAsRepoSteps fs env fp with
    | .ok githubUser =>
      (.ok { type := .repo
             url := "https://github.com/" ++ githubUser ++ "/" ++ generateRepoName fp
             fileName := none
             repositoryName := some (generateRepoName fp)
             isPublic := opts.isPublic
             dryMode := none
             workDir := some ("/tmp/" ++ generateRepoName fp ++ "-" ++ toString env.now) },
       false)
    | .error e => (.error e, env.workDirExists)

theorem uploadAsRepoSteps_error_source (fs : FileSystem) (env : RepoEnv)
    (fp : String) (e : String) (he : uploadAsRepoSteps fs env fp = .error e) :
    env.mkdirResult = .error e ∨ env.copyResult = .error e ∨
    fs.statSync fp = .error e ∨ env.splitResult = .error e ∨
    env.unlinkResult = .error e ∨ env.gitInit = .error e ∨
    env.gitBranch = .error e ∨ env.gitAdd = .error e ∨
    env.gitCommit = .error e ∨ env.whoami = .error e ∨
    env.repoCreate = .error e := by
  unfold uploadAsRepoSteps at he
  rcases hmk : env.mkdirResult with em | um <;> rw [hmk] at he
  · rw [stepThen_error] at he
    injection he with h
    exact Or.inl (by rw [h])
  rw [stepThen_ok] at he
  rcases hcp : env.copyResult with ec | uc <;> rw [hcp] at he
  · rw [stepThen_error] at he
    injection he with h
    exact Or.inr (Or.inl (by rw [h]))
  rw [stepThen_ok] at he
  rcases hst : fs.statSync fp with es | entry
  · rw [getFileSize_from_stat_error fs fp es hst, sizeStep_error] at he
    injection he with h
    exact Or.inr (Or.inr (Or.inl (by rw [h])))
  rw [getFileSize_from_stat_ok fs fp entry hst, sizeStep_ok] at he
  by_cases hbig : GITHUB_REPO_CHUNK_SIZE < entry.size
  · rw [if_pos hbig] at he
    rcases hsp : env.splitResult with esp | usp <;> rw [hsp] at he
    · rw [stepThenU_error, stepThen_error] at he
      injection he with h
      exact Or.inr (Or.inr (Or.inr (Or.inl (by rw [h]))))
    rw [stepThenU_ok] at he
    rcases hul : env.unlinkResult with eul | uul <;> rw [hul] at he
    · rw [stepThen_error] at he
      injection he with h
      exact Or.inr (Or.inr (Or.inr (Or.inr (Or.inl (by rw [h])))))
    rw [stepThen_ok] at he
    rcases hg1 : env.gitInit with eg1 | ug1 <;> rw [hg1] at he
    · rw [stepThen_error] at he
      injection he with h
      exact Or.inr (Or.inr (Or.inr (Or.inr (Or.inr (Or.inl (by rw [h]))))))
    rw [stepThen_ok] at he
    rcases hg2 : env.gitBranch with eg2 | ug2 <;> rw [hg2] at he
    · rw [stepThen_error] at he
      injection he with h
      exact Or.inr (Or.inr (Or.inr (Or.inr (Or.inr (Or.inr (Or.inl (by rw [h])))))))
    rw [stepThen_ok] at he
    rcases hg3 : env.gitAdd with eg3 | ug3 <;> rw [hg3] at he
    · rw [stepThen_error] at he
      injection he with h
      exact Or.inr (Or.inr (Or.inr (Or.inr (Or.inr (Or.inr (Or.inr (Or.inl
        (by rw [h]))))))))
    rw [stepThen_ok] at he
    rcases hg4 : env.gitCommit with eg4 | ug4 <;> rw [hg4] at he
    · rw [stepThen_error] at he
      injection he with h
      exact Or.inr (Or.inr (Or.inr (Or.inr (Or.inr (Or.inr (Or.inr (Or.inr (Or.inl
        (by rw [h])))))))))
    rw [stepThen_ok] at he
    rcases hw : env.whoami with ew | uw <;> rw [hw] at he
    · rw [userStep_error] at he
      injection he with h
      exact Or.inr (Or.inr (Or.inr (Or.inr (Or.inr (Or.inr (Or.inr (Or.inr (Or.inr
        (Or.inl (by rw [h]))))))))))
    rw [userStep_ok] at he
    rcases hrc : env.repoCreate with erc | urc <;> rw [hrc] at he
    · rw [stepThen_error] at he
      injection he with h
      exact Or.inr (Or.inr (Or.inr (Or.inr (Or.inr (Or.inr (Or.inr (Or.inr (Or.inr
        (Or.inr (by rw [h]))))))))))
    · rw [stepThen_ok] at he
      exact Except.noConfusion he
  · rw [if_neg hbig, stepThen_ok] at he
    rcases hg1 : env.gitInit with eg1 | ug1 <;> rw [hg1] at he
    · rw [stepThen_error] at he
      injection he with h
      exact Or.inr (Or.inr (Or.inr (Or.inr (Or.inr (Or.inl (by rw [h]))))))
    rw [stepThen_ok] at he
    rcases hg2 : env.gitBranch with eg2 | ug2 <;> rw [hg2] at he
    · rw [stepThen_error] at he
      injection he with h
      exact Or.inr (Or.inr (Or.inr (Or.inr (Or.inr (Or.inr (Or.inl (by rw [h])))))))
    rw [stepThen_ok] at he
    rcases hg3 : env.gitAdd with eg3 | ug3 <;> rw [hg3] at he
    · rw [stepThen_error] at he
      injection he with h
      exact Or.inr (Or.inr (Or.inr (Or.inr (Or.inr (Or.inr (Or.inr (Or.inl
        (by rw [h]))))))))
    rw [stepThen_ok] at he
    rcases hg4 : env.gitCommit with eg4 | ug4 <;> rw [hg4] at he
    · rw [stepThen_error] at he
      injection he with h
      exact Or.inr (Or.inr (Or.inr (Or.inr (Or.inr (Or.inr (Or.inr (Or.inr (Or.inl
        (by rw [h])))))))))
    rw [stepThen_ok] at he
    rcases hw : env.whoami with ew | uw <;> rw [hw] at he
    · rw [userStep_error] at he
      injection he with h
      exact Or.inr (Or.inr (Or.inr (Or.inr (Or.inr (Or.inr (Or.inr (Or.inr (Or.inr
        (Or.inl (by rw [h]))))))))))
    rw [userStep_ok] at he
    rcases hrc : env.repoCreate with erc | urc <;> rw [hrc] at he
    · rw [stepThen_error] at he
      injection he with h
      exact Or.inr (Or.inr (Or.inr (Or.inr (Or.inr (Or.inr (Or.inr (Or.inr (Or.inr
        (Or.inr (by rw [h]))))))))))
    · rw [stepThen_ok] at he
      exact Except.noConfusion he

/-- C4: every failure inside `uploadAsRepo`'s try block surfaces the
original step error unmodified (it is literally one of the step oracles'
errors, not a wrapped message), after removing the scratch directory
exactly when it exists; a success performs no cleanup and includes the
scratch `workDir` path in the result. -/
theorem uploadAsRepo_cleanup (fs : FileSystem) (env : RepoEnv)
    (opts : UploadOptions) (fp : String)
    (hfp : opts.filePath = some fp) (hne : fp ≠ "") :
    (∀ e, (uploadAsRepo fs env opts).1 = .error e →
      ((uploadAsRepo fs env opts).2 = env.workDirExists ∧
        (env.mkdirResult = .error e ∨ env.copyResult = .error e ∨
          fs.statSync fp = .error e ∨ env.splitResult = .error e ∨
          env.unlinkResult = .error e ∨ env.gitInit = .error e ∨
          env.gitBranch = .error e ∨ env.gitAdd = .error e ∨
          env.gitCommit = .error e ∨ env.whoami = .error e ∨
          env.repoCreate = .error e))) ∧
    (∀ r, (uploadAsRepo fs env opts).1 = .ok r →
      (r.workDir = some ("/tmp/" ++ generateRepoName fp ++ "-" ++ toString env.now) ∧
        (uploadAsRepo fs env opts).2 = false)) := by
  have hbody : uploadAsRepo fs env opts =
      (match uploadAsRepoSteps fs env fp with
        | .ok githubUser =>
          (.ok { type := .repo
                 url := "https://github.com/" ++ githubUser ++ "/" ++ generateRepoName fp
                 fileName := none
                 repositoryName := some (generateRepoName fp)
                 isPublic := opts.isPublic
                 dryMode := none
                 workDir := some ("/tmp/" ++ generateRepoName fp ++ "-" ++ toString env.now) },
           false)
        | .error e => (.error e, env.workDirExists)) := by
    unfold uploadAsRepo
    rw [requireFilePath_some opts fp hfp hne]
  constructor
  · intro e he
    rw [hbody] at he ⊢
    rcases hs : uploadAsRepoSteps fs env fp with es | us <;> rw [hs] at he
    · injection he with h
      subst h
      exact ⟨rfl, uploadAsRepoSteps_error_source fs env fp _ hs⟩
    · exact Except.noConfusion he
  · intro r hr
    rw [hbody] at hr ⊢
    rcases hs : uploadAsRepoSteps fs env fp with es | us <;> rw [hs] at hr
    · exact Except.noConfusion hr
    · injection hr with h
      subst h
      exact ⟨rfl, rfl⟩

/-- C4 witness: a failing `gh repo create` on a small file triggers
cleanup of the existing scratch directory and surfaces the push error
verbatim. -/
theorem uploadAsRepo_cleanup_witness :
    ((uploadAsRepo (singleFileFS "app.log" 1024)
        { mkdirResult := .ok (), copyResult := .ok (), splitResult := .ok ()
          unlinkResult := .ok (), gitInit := .ok (), gitBranch := .ok ()
          gitAdd := .ok (), gitCommit := .ok (), whoami := .ok "octocat\n"
          repoCreate := .error "push rejected", workDirExists := true, now := 7 }
        { filePath := some "app.log" }).1 = .error "push rejected") ∧
    ((uploadAsRepo (singleFileFS "app.log" 1024)
        { mkdirResult := .ok (), copyResult := .ok (), splitResult := .ok ()
          unlinkResult := .ok (), gitInit := .ok (), gitBranch := .ok ()
          gitAdd := .ok (), gitCommit := .ok (), whoami := .ok "octocat\n"
          repoCreate := .error "push rejected", workDirExists := true, now := 7 }
        { filePath := some "app.log" }).2 = true) := by
  have h := (uploadAsRepo_cleanup (singleFileFS "app.log" 1024)
      { mkdirResult := .ok (), copyResult := .ok (), splitResult := .ok ()
        unlinkResult := .ok (), gitInit := .ok (), gitBranch := .ok ()
        gitAdd := .ok (), gitCommit := .ok (), whoami := .ok "octocat\n"
        repoCreate := .error "push rejected", workDirExists := true, now := 7 }
      { filePath := some "app.log" } "app.log" rfl (by decide)).1
      "push rejected" (by rfl)
  exact ⟨by rfl, h.1⟩

/-- Decidable equality for `Except` over decidable components (needed to
evaluate concrete upload outcomes with `decide`). -/
def exceptDecEq {ε α : Type} [DecidableEq ε] [DecidableEq α] :
    DecidableEq (Except ε α) := fun a b =>
  match a, b with
  | .error x, .error y =>
    if h : x = y then .isTrue (by rw [h])
    else .isFalse (by intro hc; injection hc; exact h ‹_›)
  | .error _, .ok _ => .isFalse (by intro hc; exact Except.noConfusion hc)
  | .ok _, .error _ => .isFalse (by intro hc; exact Except.noConfusion hc)
  | .ok x, .ok y =>
    if h : x = y then .isTrue (by rw [h])
    else .isFalse (by intro hc; injection hc; exact h ‹_›)

instance {ε α : Type} [DecidableEq ε] [DecidableEq α] :
    DecidableEq (Except ε α) := exceptDecEq

/-- External upload attempts dispatched by `uploadLog`. -/
inductive UploadAction where
  | gistUpload
  | repoUpload
deriving DecidableEq, Repr

/-- Observable outcome of one `uploadLog` call: the returned (or thrown)
result, the external upload attempts in order (each with the options it
received), and the warning messages logged. -/
structure UploadLogOutput where
  result : Except String UploadResult
  attempts : List (UploadAction × UploadOptions)
  warnings : List String
deriving DecidableEq, Repr

/-- Resolution of the upload type in `uploadLog` (src/index.js lines
744–756): `onlyGist` forces gist, else `onlyRepository` forces repo,
else the classifier recommendation stands (`auto` is only logged). -/
def resolveUploadType (opts : UploadOptions) (recommended : UploadType) : UploadType :=
  if opts.onlyGist then .gist
  else if opts.onlyRepository then .repo
  else recommended

/-- The mock result built in dry mode (src/index.js lines 764–773). -/
def dryRunResult (opts : UploadOptions) (fp : String) (uploadType : UploadType) :
    UploadResult :=
  { type := uploadType
    url := if uploadType = .gist then "[DRY MODE] Would create gist"
           else "[DRY MODE] Would create repository"
    fileName := if uploadType = .gist then some (generateGistFileName fp) else none
    repositoryName := if uploadType = .repo then some (generateRepoName fp) else none
    isPublic := opts.isPublic
    dryMode := some true
    workDir := none }

/-- Embedding of `uploadLog` from src/index.js (lines 714–797).  The two
uploaders are oracles mapping the options they receive to an outcome;
the output records the dispatched attempts and logged warnings. -/
def uploadLog (fs : FileSystem)
    (gistO repoO : UploadOptions → Except String UploadResult)
    (opts : UploadOptions) : UploadLogOutput :=
  match requireFilePath opts with
  | .error e => { result := .error e, attempts := [], warnings := [] }
  | .ok fp =>
    if fileExists fs fp then
      match determineUploadStrategy fs fp with
      | .error e => { result := .error e, attempts := [], warnings := [] }
      | .ok strategy =>
        if opts.dryMode then
          { result := .ok (dryRunResult opts fp (resolveUploadType opts strategy.type))
            attempts := []
            warnings := [] }
        else if resolveUploadType opts strategy.type = .gist then
          match gistO opts with
          | .ok r => { result := .ok r, attempts := [(.gistUpload, opts)], warnings := [] }
          | .error gistError =>
            if opts.onlyGist then
              { result := .error gistError
                attempts := [(.gistUpload, opts)]
                warnings := [] }
            else
              { result := repoO opts
                attempts := [(.gistUpload, opts), (.repoUpload, opts)]
                warnings := ["Gist upload failed: " ++ gistError ++
                  ". Falling back to repository mode..."] }
        else
          { result := repoO opts, attempts := [(.repoUpload, opts)], warnings := [] }
    else
      { result := .error ("File does not exist: " ++ fp), attempts := [], warnings := [] }

theorem fileExists_true_of_stat (fs : FileSystem) (p : String) (s : Nat)
    (hex : fs.existsSync p = true) (hstat : fs.statSync p = .ok (.file s)) :
    fileExists fs p = true := by
  simp [fileExists, hex, hstat, FsEntry.isFile]

theorem determineUploadStrategy_ok (fs : FileSystem) (p : String) (s : Nat)
    (hex : fs.existsSync p = true) (hstat : fs.statSync p = .ok (.file s)) :
    determineUploadStrategy fs p = .ok (strategyOfSize s) := by
  simp [determineUploadStrategy, fileExists, getFileSize, hex, hstat,
    FsEntry.isFile, FsEntry.size]

theorem uploadLog_body (fs : FileSystem)
    (gistO repoO : UploadOptions → Except String UploadResult)
    (opts : UploadOptions) (fp : String) (s : Nat)
    (hfp : opts.filePath = some fp) (hne : fp ≠ "")
    (hex : fs.existsSync fp = true) (hstat : fs.statSync fp = .ok (.file s)) :
    uploadLog fs gistO repoO opts =
      (if opts.dryMode then
        { result := .ok (dryRunResult opts fp (resolveUploadType opts (strategyOfSize s).type))
          attempts := []
          warnings := [] }
      else if resolveUploadType opts (strategyOfSize s).type = .gist then
        match gistO opts with
        | .ok r => { result := .ok r, attempts := [(.gistUpload, opts)], warnings := [] }
        | .error gistError =>
          if opts.onlyGist then
            { result := .error gistError
              attempts := [(.gistUpload, opts)]
              warnings := [] }
          else
            { result := repoO opts
              attempts := [(.gistUpload, opts), (.repoUpload, opts)]
              warnings := ["Gist upload failed: " ++ gistError ++
                ". Falling back to repository mode..."] }
      else
        { result := repoO opts, attempts := [(.repoUpload, opts)], warnings := [] }) := by
  unfold uploadLog
  simp only [requireFilePath_some opts fp hfp hne,
    determineUploadStrategy_ok fs fp s hex hstat,
    fileExists_true_of_stat fs fp s hex hstat, if_true]

/-- C5: with `dryMode` set on an existing file, `uploadLog` returns the
synthetic result for the resolved type — placeholder URL, derived names,
requested visibility, `dryMode: true` — and performs zero external upload
attempts and logs nothing (in this embedding all file-system writes and
process invocations happen inside the dispatched uploaders, and none is
dispatched).  In particular a 1 KiB file with no flags yields
`type = gist`, `isPublic = false`, `dryMode = true`. -/
theorem uploadLog_dryMode (fs : FileSystem)
    (gistO repoO : UploadOptions → Except String UploadResult)
    (opts : UploadOptions) (fp : String) (s : Nat)
    (hfp : opts.filePath = some fp) (hne : fp ≠ "")
    (hex : fs.existsSync fp = true) (hstat : fs.statSync fp = .ok (.file s))
    (hdry : opts.dryMode = true) :
    uploadLog fs gistO repoO opts =
      { result := .ok (dryRunResult opts fp (resolveUploadType opts (strategyOfSize s).type))
        attempts := []
        warnings := [] } ∧
    (dryRunResult opts fp (resolveUploadType opts (strategyOfSize s).type)).dryMode = some true ∧
    (dryRunResult opts fp (resolveUploadType opts (strategyOfSize s).type)).isPublic = opts.isPublic ∧
    (dryRunResult opts fp (resolveUploadType opts (strategyOfSize s).type)).type =
      resolveUploadType opts (strategyOfSize s).type ∧
    (uploadLog (singleFileFS "app.log" 1024) gistO repoO
        { filePath := some "app.log", dryMode := true }).result =
      .ok { type := .gist
            url := "[DRY MODE] Would create gist"
            fileName := some (generateGistFileName "app.log")
            repositoryName := none
            isPublic := false
            dryMode := some true
            workDir := none } ∧
    (uploadLog (singleFileFS "app.log" 1024) gistO repoO
        { filePath := some "app.log", dryMode := true }).attempts = [] ∧
    (uploadLog (singleFileFS "app.log" 1024) gistO repoO
        { filePath := some "app.log", dryMode := true }).warnings = [] := by
  have hmain : uploadLog fs gistO repoO opts =
      { result := .ok (dryRunResult opts fp (resolveUploadType opts (strategyOfSize s).type))
        attempts := []
        warnings := [] } := by
    rw [uploadLog_body fs gistO repoO opts fp s hfp hne hex hstat]
    simp [hdry]
  have hconc : uploadLog (singleFileFS "app.log" 1024) gistO repoO
      { filePath := some "app.log", dryMode := true } =
      { result := .ok (dryRunResult { filePath := some "app.log", dryMode := true }
          "app.log" (resolveUploadType { filePath := some "app.log", dryMode := true }
            (strategyOfSize 1024).type))
        attempts := []
        warnings := [] } := by
    rw [uploadLog_body (singleFileFS "app.log" 1024) gistO repoO
      { filePath := some "app.log", dryMode := true } "app.log" 1024 rfl (by decide)
      (by decide) (by rfl)]
    simp
  refine ⟨hmain, rfl, rfl, rfl, ?_, ?_, ?_⟩
  · rw [hconc]
    decide
  · rw [hconc]
  · rw [hconc]

/-- C5 witness: the 1 KiB dry run with no flags returns the gist-shaped
mock result with no attempts. -/
theorem uploadLog_dryMode_witness :
    (uploadLog (singleFileFS "app.log" 1024)
        (fun _ => .error "no-gist") (fun _ => .error "no-repo")
        { filePath := some "app.log", dryMode := true }).result =
      .ok { type := .gist
            url := "[DRY MODE] Would create gist"
            fileName := some (generateGistFileName "app.log")
            repositoryName := none
            isPublic := false
            dryMode := some true
            workDir := none } ∧
    (uploadLog (singleFileFS "app.log" 1024)
        (fun _ => .error "no-gist") (fun _ => .error "no-repo")
        { filePath := some "app.log", dryMode := true }).attempts = [] := by
  have h := uploadLog_dryMode (singleFileFS "app.log" 1024)
    (fun _ => .error "no-gist") (fun _ => .error "no-repo")
    { filePath := some "app.log", dryMode := true } "app.log" 1024
    rfl (by decide) (by decide) (by rfl) (by rfl)
  exact ⟨h.2.2.2.2.1, h.2.2.2.2.2.1⟩

/-- C3: when the resolved type is gist, `dryMode` is off and the gist
upload fails with error `e`: without `onlyGist` a warning embedding `e`
is logged and a repository upload is attempted with the same options,
whose outcome becomes the call's result; with `onlyGist` the gist error
propagates unchanged and no repository attempt happens. -/
theorem uploadLog_gist_fallback (fs : FileSystem)
    (gistO repoO : UploadOptions → Except String UploadResult)
    (opts : UploadOptions) (fp : String) (s : Nat) (e : String)
    (hfp : opts.filePath = some fp) (hne : fp ≠ "")
    (hex : fs.existsSync fp = true) (hstat : fs.statSync fp = .ok (.file s))
    (hdry : opts.dryMode = false)
    (hgist : resolveUploadType opts (strategyOfSize s).type = .gist)
    (hfail : gistO opts = .error e) :
    (opts.onlyGist = false →
      uploadLog fs gistO repoO opts =
        { result := repoO opts
          attempts := [(.gistUpload, opts), (.repoUpload, opts)]
          warnings := ["Gist upload failed: " ++ e ++
            ". Falling back to repository mode..."] }) ∧
    (opts.onlyGist = true →
      uploadLog fs gistO repoO opts =
        { result := .error e
          attempts := [(.gistUpload, opts)]
          warnings := [] }) ∧
    (∃ pre post,
      "Gist upload failed: " ++ e ++ ". Falling back to repository mode..." =
        pre ++ e ++ post) := by
  have hbase := uploadLog_body fs gistO repoO opts fp s hfp hne hex hstat
  rw [hdry] at hbase
  rw [hgist] at hbase
  rw [hfail] at hbase
  simp only [Bool.false_eq_true, if_false, if_pos rfl] at hbase
  refine ⟨?_, ?_, "Gist upload failed: ", ". Falling back to repository mode...", rfl⟩
  · intro honly
    rw [hbase, honly]
    simp
  · intro honly
    rw [hbase, honly]
    simp

/-- C3 witness: a failing gist oracle for a 1 KiB file falls back to the
repository uploader without `onlyGist`, and propagates with it. -/
theorem uploadLog_gist_fallback_witness :
    uploadLog (singleFileFS "app.log" 1024)
        (fun _ => .error "HTTP 502") (fun _ => .ok { type := .repo, url := "r", isPublic := false })
        { filePath := some "app.log" } =
      { result := .ok { type := .repo, url := "r", isPublic := false }
        attempts := [(.gistUpload, { filePath := some "app.log" }),
          (.repoUpload, { filePath := some "app.log" })]
        warnings := ["Gist upload failed: HTTP 502. Falling back to repository mode..."] } ∧
    uploadLog (singleFileFS "app.log" 1024)
        (fun _ => .error "HTTP 502") (fun _ => .ok { type := .repo, url := "r", isPublic := false })
        { filePath := some "app.log", onlyGist := true } =
      { result := .error "HTTP 502"
        attempts := [(.gistUpload, { filePath := some "app.log", onlyGist := true })]
        warnings := [] } := by
  constructor
  · have h := (uploadLog_gist_fallback (singleFileFS "app.log" 1024)
      (fun _ => .error "HTTP 502") (fun _ => .ok { type := .repo, url := "r", isPublic := false })
      { filePath := some "app.log" } "app.log" 1024 "HTTP 502"
      rfl (by decide) (by decide) (by rfl) (by rfl) (by decide) (by rfl)).1 (by rfl)
    simpa using h
  · have h := (uploadLog_gist_fallback (singleFileFS "app.log" 1024)
      (fun _ => .error "HTTP 502") (fun _ => .ok { type := .repo, url := "r", isPublic := false })
      { filePath := some "app.log", onlyGist := true } "app.log" 1024 "HTTP 502"
      rfl (by decide) (by decide) (by rfl) (by rfl) (by decide) (by rfl)).2.1 (by rfl)
    simpa using h

/-- C7: on an existing file the dispatched uploader follows `onlyGist`
(gist), else `onlyRepository` (repo), else the classifier recommendation;
and flipping the `auto` flag changes neither the returned result, nor the
warnings, nor which uploaders are attempted (given that the uploaders
themselves ignore `auto`, as `uploadAsGist`/`uploadAsRepo` do — they
never read that field). -/
theorem uploadLog_override_auto (fs : FileSystem)
    (gistO repoO : UploadOptions → Except String UploadResult)
    (opts : UploadOptions) (fp : String) (s : Nat)
    (hfp : opts.filePath = some fp) (hne : fp ≠ "")
    (hex : fs.existsSync fp = true) (hstat : fs.statSync fp = .ok (.file s))
    (hg : ∀ b, gistO { opts with auto := b } = gistO opts)
    (hr : ∀ b, repoO { opts with auto := b } = repoO opts) :
    ((uploadLog fs gistO repoO opts).attempts.map Prod.fst).head? =
      (if opts.dryMode then none
       else if opts.onlyGist then some UploadAction.gistUpload
       else if opts.onlyRepository then some UploadAction.repoUpload
       else if (strategyOfSize s).type = .gist then some UploadAction.gistUpload
       else some UploadAction.repoUpload) ∧
    (opts.dryMode = true → ∀ r, (uploadLog fs gistO repoO opts).result = .ok r →
      r.type = (if opts.onlyGist then UploadType.gist
        else if opts.onlyRepository then UploadType.repo
        else (strategyOfSize s).type)) ∧
    (∀ b : Bool,
      (uploadLog fs gistO repoO { opts with auto := b }).result =
        (uploadLog fs gistO repoO opts).result ∧
      (uploadLog fs gistO repoO { opts with auto := b }).warnings =
        (uploadLog fs gistO repoO opts).warnings ∧
      (uploadLog fs gistO repoO { opts with auto := b }).attempts.map Prod.fst =
        (uploadLog fs gistO repoO opts).attempts.map Prod.fst) := by
  have hbase := uploadLog_body fs gistO repoO opts fp s hfp hne hex hstat
  refine ⟨?_, ?_, ?_⟩
  · rw [hbase]
    by_cases hd : opts.dryMode
    · simp [hd]
    · simp only [hd, Bool.false_eq_true, if_false]
      by_cases hog : opts.onlyGist
      · rcases hgo : gistO opts with ge | gr <;>
          simp [hog, hgo, resolveUploadType]
      · by_cases hor : opts.onlyRepository
        · simp [hog, hor, resolveUploadType]
        · by_cases ht : (strategyOfSize s).type = .gist
          · rcases hgo : gistO opts with ge | gr <;>
              simp [hog, hor, ht, hgo, resolveUploadType]
          · simp [hog, hor, ht, resolveUploadType]
  · intro hd r hres
    rw [hbase] at hres
    simp only [hd, if_true, if_pos rfl] at hres
    injection hres with h
    rw [← h]
    simp [dryRunResult, resolveUploadType]
  · intro b
    have hbase2 := uploadLog_body fs gistO repoO { opts with auto := b } fp s
      (by simpa using hfp) hne hex hstat
    rw [hbase, hbase2, hg b, hr b]
    by_cases hd : opts.dryMode
    · simp [hd, dryRunResult, resolveUploadType]
    · simp only [hd, Bool.false_eq_true, if_false]
      by_cases hog : opts.onlyGist
      · rcases hgo : gistO opts with ge | gr <;>
          simp [hog, hgo, resolveUploadType]
      · by_cases hor : opts.onlyRepository
        · simp [hog, hor, resolveUploadType]
        · by_cases ht : (strategyOfSize s).type = .gist
          · rcases hgo : gistO opts with ge | gr <;>
              simp [hog, hor, ht, hgo, resolveUploadType]
          · simp [hog, hor, ht, resolveUploadType]

/-- C7 witness: for a 1 KiB file with no override flags the first
attempt is the gist uploader, and flipping `auto` leaves the result
unchanged. -/
theorem uploadLog_override_auto_witness :
    ((uploadLog (singleFileFS "app.log" 1024)
        (fun _ => .error "boom") (fun _ => .ok { type := .repo, url := "r", isPublic := false })
        { filePath := some "app.log" }).attempts.map Prod.fst).head? =
      some UploadAction.gistUpload ∧
    (uploadLog (singleFileFS "app.log" 1024)
        (fun _ => .error "boom") (fun _ => .ok { type := .repo, url := "r", isPublic := false })
        { filePath := some "app.log", auto := false }).result =
      (uploadLog (singleFileFS "app.log" 1024)
        (fun _ => .error "boom") (fun _ => .ok { type := .repo, url := "r", isPublic := false })
        { filePath := some "app.log" }).result := by
  have h := uploadLog_override_auto (singleFileFS "app.log" 1024)
    (fun _ => .error "boom") (fun _ => .ok { type := .repo, url := "r", isPublic := false })
    { filePath := some "app.log" } "app.log" 1024
    rfl (by decide) (by decide) (by rfl) (fun b => rfl) (fun b => rfl)
  refine ⟨?_, (h.2.2 false).1⟩
  rw [h.1]
  decide
